import Mathlib

/-!
# Verification of the `lisa` document-analysis adapter

Shallow embedding of the Python sources `src/utils.py` and `src/app.py`:
the upload validator, the response-normalization logic (`extract_data` and
its helpers `_extract_bounding_boxes`, `_organize_headers_by_level`), and
the retry loop plus result conversion of `DocumentIntelligenceProcessor`
(`analyze_document`, `_convert_result_to_dict`).

Python dictionaries are modelled as insertion-ordered association lists,
Python `None` as `Option.none`, truthiness tests as explicit emptiness /
non-emptiness tests, and machine floats (confidence values, coordinates)
as rationals.
-/

namespace Lisa

/-- Python truthiness of a string: `""` is falsy, everything else truthy. -/
def pyTruthyStr (s : String) : Bool := s ≠ ""

/-- Decidable check that the list `p` is a prefix of the list `s`. -/
def prefixOfL : List Char → List Char → Bool
  | [], _ => true
  | _ :: _, [] => false
  | p :: ps, c :: cs => p == c && prefixOfL ps cs

/-- Decidable check that `p` occurs as a contiguous sublist of `s`
(the semantics of Python's `p in s` on strings). -/
def containsSubL (p : List Char) : List Char → Bool
  | [] => p.isEmpty
  | c :: rest => prefixOfL p (c :: rest) || containsSubL p rest

/-- Python `s.lower()`: ASCII case folding, character by character
(extensionally `String.toLower`, stated over the character list so that
it reduces in the kernel). -/
def strLower (s : String) : String := String.mk (s.data.map Char.toLower)

/-- Python `s.endswith(suffix)` (extensionally `String.endsWith`). -/
def strEndsWith (s suffix : String) : Bool := suffix.data.isSuffixOf s.data

/-- Python's substring operator `pat in s` on strings. -/
def strIn (pat s : String) : Bool := containsSubL pat.toList s.toList

/-- JSON-like values: the shape of the Python dictionaries returned by the
adapter (null / number / integer / string / list / dict). -/
inductive JVal where
  | null : JVal
  | num : ℚ → JVal
  | int : Int → JVal
  | str : String → JVal
  | arr : List JVal → JVal
  | obj : List (String × JVal) → JVal

/-- Keys of an association-list dictionary, in insertion order. -/
def dictKeys (d : List (String × α)) : List String := d.map (·.1)

/-- First-match lookup in an association-list dictionary
(Python `d[k]` / `d.get(k)`). -/
def dlookup : List (String × α) → String → Option α
  | [], _ => none
  | (k', v) :: rest, k => if k = k' then some v else dlookup rest k

/-- Python's `d.setdefault(k, []).append(v)` pattern used by
`_organize_headers_by_level`: append `v` to the list stored at `k`,
creating the key at the end of the dictionary when absent. -/
def dictAppend : List (String × List α) → String → α → List (String × List α)
  | [], k, v => [(k, [v])]
  | (k', vs) :: rest, k, v =>
      if k' = k then (k', vs ++ [v]) :: rest else (k', vs) :: dictAppend rest k v

/-- Python `min` over a list of rationals (`none` on the empty list,
where Python would raise). -/
def pyMin : List ℚ → Option ℚ
  | [] => none
  | x :: xs => some (xs.foldl min x)

/-- Python `max` over a list of rationals (`none` on the empty list,
where Python would raise). -/
def pyMax : List ℚ → Option ℚ
  | [] => none
  | x :: xs => some (xs.foldl max x)

end Lisa

namespace Lisa.Utils

/-! ## Data model of the `azure.ai.formrecognizer` result consumed by
`src/utils.py`.

Attributes that the code probes with `getattr`/`hasattr` are modelled as
`Option`s (`none` = attribute absent or `None`); lists that the code only
ever tests for truthiness are modelled as plain Lean lists (`[]` = absent,
`None`, or empty, which the code treats identically). -/

/-- A polygon vertex (`point.x`, `point.y`). -/
structure Point where
  x : ℚ
  y : ℚ
  deriving DecidableEq

/-- A bounding region: `page_number` as probed with
`getattr(region, 'page_number', None)`, and `polygon` where `none` models
a region object without a `polygon` attribute. -/
structure BoundingRegion where
  page_number : Option Int
  polygon : Option (List Point)
  deriving DecidableEq

/-- A `DocumentParagraph`: `content`, optional `role`, optional
`confidence`, and its bounding regions. -/
structure Paragraph where
  content : String
  role : Option String
  confidence : Option ℚ
  bounding_regions : List BoundingRegion
  deriving DecidableEq

/-- A `DocumentFormula`: the code reads `value` (defaulting to `''`),
`confidence`, `kind`, and `bounding_regions`. -/
structure Formula where
  value : Option String
  confidence : Option ℚ
  kind : Option String
  bounding_regions : List BoundingRegion
  deriving DecidableEq

/-- A `DocumentTableCell` with the attributes read by `extract_data`. -/
structure Cell where
  content : String
  row_index : Int
  column_index : Int
  row_span : Option Int
  column_span : Option Int
  confidence : Option ℚ
  kind : Option String
  deriving DecidableEq

/-- A `DocumentTable` with the attributes read by `extract_data`. -/
structure Table where
  row_count : Int
  column_count : Int
  cells : List Cell
  confidence : Option ℚ
  bounding_regions : List BoundingRegion
  deriving DecidableEq

/-- One side of a key-value pair (`kv_pair.key` / `kv_pair.value`);
the code only reads its `content`. -/
structure KVElem where
  content : String
  deriving DecidableEq

/-- A `DocumentKeyValuePair`. -/
structure KVPair where
  key : Option KVElem
  value : Option KVElem
  confidence : Option ℚ
  deriving DecidableEq

/-- A `DocumentPage` with the attributes read by `extract_data`;
`lines`/`words` are `none` when absent or `None` (both count as 0). -/
structure Page where
  page_number : Int
  width : Option ℚ
  height : Option ℚ
  unit : Option String
  angle : Option ℚ
  lines : Option Nat
  words : Option Nat
  deriving DecidableEq

/-- The `AnalyzeResult` object returned by the form-recognizer poller,
restricted to the attributes `extract_data` reads. -/
structure AnalyzeResult where
  model_id : String
  content : Option String
  paragraphs : List Paragraph
  tables : List Table
  formulas : List Formula
  key_value_pairs : List KVPair
  pages : List Page
  deriving DecidableEq

/-- An element of the heterogeneous `all_elements` list that
`extract_data` feeds to `_extract_bounding_boxes`. -/
inductive DocElement where
  | paragraph : Paragraph → DocElement
  | table : Table → DocElement
  | formula : Formula → DocElement
  deriving DecidableEq

/-- The element's `bounding_regions` attribute. -/
def DocElement.bounding_regions : DocElement → List BoundingRegion
  | .paragraph p => p.bounding_regions
  | .table t => t.bounding_regions
  | .formula f => f.bounding_regions

/-- Python `getattr(element, 'content', '')`: paragraphs carry `content`;
tables and formulas do not (formulas carry `value`, not `content`). -/
def DocElement.contentAttr : DocElement → String
  | .paragraph p => p.content
  | .table _ => ""
  | .formula _ => ""

/-- Python `type(element).__name__`. -/
def DocElement.typeName : DocElement → String
  | .paragraph _ => "DocumentParagraph"
  | .table _ => "DocumentTable"
  | .formula _ => "DocumentFormula"

/-- Python `getattr(element, 'confidence', None)`. -/
def DocElement.confidenceAttr : DocElement → Option ℚ
  | .paragraph p => p.confidence
  | .table t => t.confidence
  | .formula f => f.confidence

/-- One entry of the flattened `bounding_boxes` list. -/
structure BBox where
  page_number : Option Int
  polygon : List (ℚ × ℚ)
  content : String
  element_type : String
  confidence : Option ℚ
  deriving DecidableEq

/-- The bounding boxes contributed by the regions of one element: the
code's inner loop `for region in element.bounding_regions`, guarded by
`if hasattr(region, 'polygon') and region.polygon`. -/
def regionBoxes (e : DocElement) (rs : List BoundingRegion) : List BBox :=
  rs.filterMap fun r =>
    match r.polygon with
    | some (pt :: pts) =>
        some { page_number := r.page_number
               polygon := (pt :: pts).map fun p => (p.x, p.y)
               content := e.contentAttr
               element_type := e.typeName
               confidence := e.confidenceAttr }
    | _ => none

/-- `_extract_bounding_boxes` from `src/utils.py` (lines 99-124): for each
element, when `hasattr(element, 'bounding_regions') and
element.bounding_regions` is truthy, append one box per region that has a
truthy polygon. -/
def extractBoundingBoxes : List DocElement → List BBox
  | [] => []
  | e :: rest =>
      (if e.bounding_regions.isEmpty then [] else regionBoxes e e.bounding_regions)
        ++ extractBoundingBoxes rest

/-- Whether a region passes the inner guard of `_extract_bounding_boxes`
(a truthy `polygon`). -/
def regionHasPolygon (r : BoundingRegion) : Bool :=
  match r.polygon with
  | some (_ :: _) => true
  | _ => false

/-! ## Header organization (`_organize_headers_by_level`, lines 127-180) -/

/-- The heading-level chain of `_organize_headers_by_level`: level is
`"h1"` when the lowered role contains `"h1"` **or** `"title"`, else the
first match among `"h2"`..`"h6"`, else the default `"h1"`. -/
def headerLevel (role : String) : String :=
  let rl := strLower role
  if strIn "h1" rl || strIn "title" rl then "h1"
  else if strIn "h2" rl then "h2"
  else if strIn "h3" rl then "h3"
  else if strIn "h4" rl then "h4"
  else if strIn "h5" rl then "h5"
  else if strIn "h6" rl then "h6"
  else "h1"

/-- A bounding region as re-emitted inside paragraph / header records:
only regions with a `polygon` attribute are kept
(`if hasattr(region, 'polygon')`). -/
structure RegionOut where
  page_number : Option Int
  polygon : List (ℚ × ℚ)
  deriving DecidableEq

/-- The `bounding_regions` list built for a paragraph record or a header
record: one entry per region that has a `polygon` attribute. -/
def regionsOut (rs : List BoundingRegion) : List RegionOut :=
  rs.filterMap fun r =>
    (r.polygon).map fun pts =>
      { page_number := r.page_number, polygon := pts.map fun p => (p.x, p.y) }

/-- One header record (`header_info` in the source). -/
structure HeaderInfo where
  content : String
  confidence : Option ℚ
  bounding_regions : List RegionOut
  deriving DecidableEq

/-- The `header_info` dictionary built for a header paragraph. -/
def headerInfoOf (p : Paragraph) : HeaderInfo :=
  { content := p.content
    confidence := p.confidence
    bounding_regions := regionsOut p.bounding_regions }

/-- The body of the paragraph loop of `_organize_headers_by_level`: when
the paragraph has a truthy role containing `"title"` or `"heading"`
(case-insensitively), append its record under its computed level. -/
def organizeStep (acc : List (String × List HeaderInfo)) (p : Paragraph) :
    List (String × List HeaderInfo) :=
  match p.role with
  | none => acc
  | some role =>
      if pyTruthyStr role then
        if strIn "title" (strLower role) || strIn "heading" (strLower role) then
          dictAppend acc (headerLevel role) (headerInfoOf p)
        else acc
      else acc

/-- `_organize_headers_by_level` from `src/utils.py`: fold the paragraph
loop over an initially empty dictionary. -/
def organizeHeadersByLevel (paragraphs : List Paragraph) :
    List (String × List HeaderInfo) :=
  paragraphs.foldl organizeStep []

/-- The classification of one paragraph: `none` when the paragraph is not
a header (no truthy role containing `"title"`/`"heading"`), otherwise its
level together with its header record. -/
def headerItem (p : Paragraph) : Option (String × HeaderInfo) :=
  match p.role with
  | none => none
  | some role =>
      if pyTruthyStr role &&
          (strIn "title" (strLower role) || strIn "heading" (strLower role)) then
        some (headerLevel role, headerInfoOf p)
      else none

/-- The header records of `ps` classified at level `k`, in original
paragraph order. -/
def itemsAt (ps : List Paragraph) (k : String) : List HeaderInfo :=
  ((ps.filterMap headerItem).filter fun it => it.1 = k).map (·.2)

/-- Append a batch of values to an optional dictionary entry: `none`
stays `none` when the batch is empty, otherwise the batch is appended to
whatever was present. -/
def joinOpt (o : Option (List α)) (l : List α) : Option (List α) :=
  match o with
  | some vs => some (vs ++ l)
  | none => match l with
    | [] => none
    | x :: xs => some (x :: xs)


/-! ## The normalization performed by `extract_data` (lines 270-433)

`extract_data_core` is the pure response-to-schema mapping applied after
the upstream analysis succeeded: the initialization of the nine-key
dictionary followed by the field-by-field extraction.  The network call,
credential setup, and the surrounding `try/except` are modelled
separately below for the error-path claims. -/

/-- One `para_data` record. -/
structure ParaData where
  content : String
  role : Option String
  confidence : Option ℚ
  bounding_regions : List RegionOut
  deriving DecidableEq

/-- The `para_data` dictionary built for one upstream paragraph. -/
def mkParaData (p : Paragraph) : ParaData :=
  { content := p.content
    role := p.role
    confidence := p.confidence
    bounding_regions := regionsOut p.bounding_regions }

/-- The `paragraphs` list of the result: populated only inside
`if result.paragraphs:`. -/
def paraDatas (result : AnalyzeResult) : List ParaData :=
  if result.paragraphs.isEmpty then [] else result.paragraphs.map mkParaData

/-- The `headers` dictionary of the result: assigned only inside
`if result.paragraphs:`, else left `{}`. -/
def headersDict (result : AnalyzeResult) : List (String × List HeaderInfo) :=
  if result.paragraphs.isEmpty then [] else organizeHeadersByLevel result.paragraphs

/-- One `formula_data` record (`content` is `getattr(formula, 'value', '')`). -/
structure FormulaData where
  content : String
  confidence : Option ℚ
  kind : Option String
  bounding_regions : List RegionOut
  deriving DecidableEq

/-- The `formula_data` dictionary built for one upstream formula. -/
def mkFormulaData (f : Formula) : FormulaData :=
  { content := f.value.getD ""
    confidence := f.confidence
    kind := f.kind
    bounding_regions := regionsOut f.bounding_regions }

/-- The `formulas` list of the result. -/
def formulaDatas (result : AnalyzeResult) : List FormulaData :=
  if result.formulas.isEmpty then [] else result.formulas.map mkFormulaData

/-- One `cell_data` record. -/
structure CellData where
  content : String
  row_index : Int
  column_index : Int
  row_span : Int
  column_span : Int
  confidence : Option ℚ
  kind : Option String
  deriving DecidableEq

/-- The `cell_data` dictionary built for one table cell
(`row_span`/`column_span` default to 1 via `getattr`). -/
def mkCellData (c : Cell) : CellData :=
  { content := c.content
    row_index := c.row_index
    column_index := c.column_index
    row_span := c.row_span.getD 1
    column_span := c.column_span.getD 1
    confidence := c.confidence
    kind := c.kind }

/-- One `table_data` record. -/
structure TableData where
  row_count : Int
  column_count : Int
  cells : List CellData
  confidence : Option ℚ
  bounding_regions : List RegionOut
  deriving DecidableEq

/-- The `table_data` dictionary built for one upstream table. -/
def mkTableData (t : Table) : TableData :=
  { row_count := t.row_count
    column_count := t.column_count
    cells := t.cells.map mkCellData
    confidence := t.confidence
    bounding_regions := regionsOut t.bounding_regions }

/-- The `tables` list of the result. -/
def tableDatas (result : AnalyzeResult) : List TableData :=
  if result.tables.isEmpty then [] else result.tables.map mkTableData

/-- One `kv_data` record. -/
structure KVData where
  key : Option String
  value : Option String
  confidence : Option ℚ
  deriving DecidableEq

/-- The `kv_data` dictionary built for one upstream key-value pair. -/
def mkKVData (kv : KVPair) : KVData :=
  { key := kv.key.map KVElem.content
    value := kv.value.map KVElem.content
    confidence := kv.confidence }

/-- The `key_value_pairs` list of the result. -/
def kvDatas (result : AnalyzeResult) : List KVData :=
  if result.key_value_pairs.isEmpty then []
  else result.key_value_pairs.map mkKVData

/-- One `page_data` record. -/
structure PageData where
  page_number : Int
  width : Option ℚ
  height : Option ℚ
  unit : Option String
  angle : Option ℚ
  lines_count : Nat
  words_count : Nat
  deriving DecidableEq

/-- The `page_data` dictionary built for one upstream page. -/
def mkPageData (p : Page) : PageData :=
  { page_number := p.page_number
    width := p.width
    height := p.height
    unit := p.unit
    angle := p.angle
    lines_count := p.lines.getD 0
    words_count := p.words.getD 0 }

/-- The `pages` list of the result. -/
def pageDatas (result : AnalyzeResult) : List PageData :=
  if result.pages.isEmpty then [] else result.pages.map mkPageData

/-- The `document_metadata` record. -/
structure DocMetadata where
  model_id : String
  total_pages : Nat
  file_name : String
  file_size_bytes : Nat
  content_length : Nat
  deriving DecidableEq

/-- The `document_metadata` dictionary. -/
def mkMetadata (result : AnalyzeResult) (file_name : String) (file_size : Nat) :
    DocMetadata :=
  { model_id := result.model_id
    total_pages := if result.pages.isEmpty then 0 else result.pages.length
    file_name := file_name
    file_size_bytes := file_size
    content_length := match result.content with
      | some c => c.length
      | none => 0 }

/-- The `all_elements` list fed to `_extract_bounding_boxes`. -/
def allElements (result : AnalyzeResult) : List DocElement :=
  (if result.paragraphs.isEmpty then []
    else result.paragraphs.map DocElement.paragraph)
  ++ (if result.tables.isEmpty then [] else result.tables.map DocElement.table)
  ++ (if result.formulas.isEmpty then []
    else result.formulas.map DocElement.formula)

/-- The `confidence_scores` record. -/
structure ConfidenceScores where
  average_paragraph_confidence : Option ℚ
  average_table_confidence : Option ℚ
  average_formula_confidence : Option ℚ
  min_confidence : Option ℚ
  max_confidence : Option ℚ
  deriving DecidableEq

/-- The `paragraph_confidences` pool: non-null confidences of the
extracted paragraph records. -/
def paragraphConfidences (result : AnalyzeResult) : List ℚ :=
  (paraDatas result).filterMap ParaData.confidence

/-- The `table_confidences` pool. -/
def tableConfidences (result : AnalyzeResult) : List ℚ :=
  (tableDatas result).filterMap TableData.confidence

/-- The `formula_confidences` pool. -/
def formulaConfidences (result : AnalyzeResult) : List ℚ :=
  (formulaDatas result).filterMap FormulaData.confidence

/-- The `confidence_scores` computation of `extract_data`
(lines 407-426): per-pool arithmetic means, and min/max over the
concatenated pool, all `None` on empty pools. -/
def confidenceScores (result : AnalyzeResult) : ConfidenceScores :=
  let pcs := paragraphConfidences result
  let tcs := tableConfidences result
  let fcs := formulaConfidences result
  { average_paragraph_confidence :=
      if pcs.isEmpty then none else some (pcs.sum / pcs.length)
    average_table_confidence :=
      if tcs.isEmpty then none else some (tcs.sum / tcs.length)
    average_formula_confidence :=
      if fcs.isEmpty then none else some (fcs.sum / fcs.length)
    min_confidence := pyMin (pcs ++ tcs ++ fcs)
    max_confidence := pyMax (pcs ++ tcs ++ fcs) }

/-! ### JSON encoders: the records above rendered as the Python
dictionary values they stand for. -/

/-- Encode an optional rational (`None` ↦ `null`). -/
def encOptQ : Option ℚ → JVal
  | none => .null
  | some q => .num q

/-- Encode an optional integer. -/
def encOptInt : Option Int → JVal
  | none => .null
  | some n => .int n

/-- Encode an optional string. -/
def encOptStr : Option String → JVal
  | none => .null
  | some s => .str s

/-- Encode a polygon: a list of `(x, y)` pairs. -/
def encPoly (pts : List (ℚ × ℚ)) : JVal :=
  .arr (pts.map fun p => .arr [.num p.1, .num p.2])

/-- Encode a re-emitted bounding region. -/
def encRegionOut (r : RegionOut) : JVal :=
  .obj [("page_number", encOptInt r.page_number), ("polygon", encPoly r.polygon)]

/-- Encode a paragraph record. -/
def encParaData (p : ParaData) : JVal :=
  .obj [("content", .str p.content), ("role", encOptStr p.role),
        ("confidence", encOptQ p.confidence),
        ("bounding_regions", .arr (p.bounding_regions.map encRegionOut))]

/-- Encode a header record. -/
def encHeaderInfo (h : HeaderInfo) : JVal :=
  .obj [("content", .str h.content), ("confidence", encOptQ h.confidence),
        ("bounding_regions", .arr (h.bounding_regions.map encRegionOut))]

/-- Encode a formula record. -/
def encFormulaData (f : FormulaData) : JVal :=
  .obj [("content", .str f.content), ("confidence", encOptQ f.confidence),
        ("kind", encOptStr f.kind),
        ("bounding_regions", .arr (f.bounding_regions.map encRegionOut))]

/-- Encode a table-cell record. -/
def encCellData (c : CellData) : JVal :=
  .obj [("content", .str c.content), ("row_index", .int c.row_index),
        ("column_index", .int c.column_index), ("row_span", .int c.row_span),
        ("column_span", .int c.column_span),
        ("confidence", encOptQ c.confidence), ("kind", encOptStr c.kind)]

/-- Encode a table record. -/
def encTableData (t : TableData) : JVal :=
  .obj [("row_count", .int t.row_count), ("column_count", .int t.column_count),
        ("cells", .arr (t.cells.map encCellData)),
        ("confidence", encOptQ t.confidence),
        ("bounding_regions", .arr (t.bounding_regions.map encRegionOut))]

/-- Encode a key-value record. -/
def encKVData (kv : KVData) : JVal :=
  .obj [("key", encOptStr kv.key), ("value", encOptStr kv.value),
        ("confidence", encOptQ kv.confidence)]

/-- Encode a flattened bounding box. -/
def encBBox (b : BBox) : JVal :=
  .obj [("page_number", encOptInt b.page_number), ("polygon", encPoly b.polygon),
        ("content", .str b.content), ("element_type", .str b.element_type),
        ("confidence", encOptQ b.confidence)]

/-- Encode a page record. -/
def encPageData (p : PageData) : JVal :=
  .obj [("page_number", .int p.page_number), ("width", encOptQ p.width),
        ("height", encOptQ p.height), ("unit", encOptStr p.unit),
        ("angle", encOptQ p.angle), ("lines_count", .int p.lines_count),
        ("words_count", .int p.words_count)]

/-- Encode the document metadata record. -/
def encMetadata (m : DocMetadata) : JVal :=
  .obj [("model_id", .str m.model_id), ("total_pages", .int m.total_pages),
        ("file_name", .str m.file_name), ("file_size_bytes", .int m.file_size_bytes),
        ("content_length", .int m.content_length)]

/-- Encode the confidence-scores record. -/
def encConfidence (c : ConfidenceScores) : JVal :=
  .obj [("average_paragraph_confidence", encOptQ c.average_paragraph_confidence),
        ("average_table_confidence", encOptQ c.average_table_confidence),
        ("average_formula_confidence", encOptQ c.average_formula_confidence),
        ("min_confidence", encOptQ c.min_confidence),
        ("max_confidence", encOptQ c.max_confidence)]

/-- The dictionary returned by `extract_data` on a successful analysis:
the `extracted_data` dictionary initialized at lines 271-281 with each
key then overwritten by the extraction passes, in its original insertion
order. -/
def extractDataCore (result : AnalyzeResult) (file_name : String)
    (file_size : Nat) : List (String × JVal) :=
  [("paragraphs", .arr ((paraDatas result).map encParaData)),
   ("headers",
     .obj ((headersDict result).map fun e => (e.1, JVal.arr (e.2.map encHeaderInfo)))),
   ("formulas", .arr ((formulaDatas result).map encFormulaData)),
   ("tables", .arr ((tableDatas result).map encTableData)),
   ("key_value_pairs", .arr ((kvDatas result).map encKVData)),
   ("bounding_boxes", .arr ((extractBoundingBoxes (allElements result)).map encBBox)),
   ("pages", .arr ((pageDatas result).map encPageData)),
   ("document_metadata", encMetadata (mkMetadata result file_name file_size)),
   ("confidence_scores", encConfidence (confidenceScores result))]


/-! ## Validation and the full `extract_data` error path -/

/-- Python truthiness of an optional string (`None` and `""` falsy). -/
def pyTruthyOptStr : Option String → Bool
  | none => false
  | some s => pyTruthyStr s

/-- The exception classes distinguished by `extract_data`'s handlers. -/
inductive PyExc where
  | die : String → PyExc
  | http : String → PyExc
  | service : String → PyExc
  | other : String → PyExc
  deriving DecidableEq

/-- A Streamlit uploaded file: declared name, optional declared MIME
type, and raw byte content. -/
structure UploadedFile where
  name : String
  type : Option String
  content : List Nat
  deriving DecidableEq

/-- The size checks of `_validate_pdf_file` (lines 85-96), reached after
the extension and MIME checks passed. -/
def validateSize (f : UploadedFile) : Except PyExc Bool :=
  if f.content.length = 0 then .error (.die "File is empty")
  else if f.content.length > 500 * 1024 * 1024 then
    -- the Python message interpolates the size in MB; the numeric
    -- interpolation is elided here
    .error (.die "File too large. Maximum size is 500MB")
  else .ok true

/-- `_validate_pdf_file` from `src/utils.py` (lines 56-96): null check,
then extension check, then MIME check, then emptiness and size checks,
short-circuiting on the first failure. -/
def validatePdfFile (f? : Option UploadedFile) : Except PyExc Bool :=
  match f? with
  | none => .error (.die "No file provided")
  | some f =>
      if ¬ strEndsWith (strLower f.name) ".pdf" then
        .error (.die ("Invalid file type. Expected PDF, got: " ++ f.name))
      else
        match f.type with
        | some t =>
            if pyTruthyStr t &&
                !(strLower t == "application/pdf" || strLower t == "application/x-pdf") then
              .error (.die ("Invalid MIME type. Expected PDF, got: " ++ t))
            else validateSize f
        | none => validateSize f

/-- The exogenous environment of one `extract_data` call: the two
environment variables, whether each credential constructor succeeds, and
the outcome of the upstream submit-and-poll call. -/
structure ExtractEnv where
  envEndpoint : Option String
  envKey : Option String
  defaultCredOk : Bool
  browserCredOk : Bool
  analysis : Except PyExc AnalyzeResult

/-- The credential selected for the call. -/
inductive Credential where
  | azureDefault : Credential
  | browser : Credential
  | key : String → Credential
  deriving DecidableEq

/-- `_get_credential` (lines 28-53): try `DefaultAzureCredential`, fall
back to `InteractiveBrowserCredential`, else raise
`DocumentIntelligenceError`. -/
def getCredential (env : ExtractEnv) : Except PyExc Credential :=
  if env.defaultCredOk then .ok .azureDefault
  else if env.browserCredOk then .ok .browser
  else .error (.die "Failed to acquire Azure credentials. Ensure you are authenticated with Azure CLI or have proper managed identity configured.")

/-- The body of `extract_data`'s `try` block: validation, endpoint and
credential resolution, the upstream call, then the pure normalization. -/
def extractDataTry (file? : Option UploadedFile) (endpoint : Option String)
    (use_key_credential : Bool) (api_key : Option String) (env : ExtractEnv) :
    Except PyExc (List (String × JVal)) :=
  match file? with
  | none => .error (.die "No file provided")
  | some f =>
      match validatePdfFile (some f) with
      | .error e => .error e
      | .ok _ =>
          let endpointR : Except PyExc String :=
            if pyTruthyOptStr endpoint then .ok (endpoint.getD "")
            else if pyTruthyOptStr env.envEndpoint then .ok (env.envEndpoint.getD "")
            else .error (.die "Document Intelligence endpoint not provided. Set AZURE_DOCUMENT_INTELLIGENCE_ENDPOINT environment variable or pass endpoint parameter.")
          match endpointR with
          | .error e => .error e
          | .ok _ =>
              let credR : Except PyExc Credential :=
                if use_key_credential then
                  if pyTruthyOptStr api_key then .ok (.key (api_key.getD ""))
                  else if pyTruthyOptStr env.envKey then .ok (.key (env.envKey.getD ""))
                  else .error (.die "API key not provided. Set AZURE_DOCUMENT_INTELLIGENCE_KEY environment variable or pass api_key parameter when use_key_credential=True.")
                else getCredential env
              match credR with
              | .error e => .error e
              | .ok _ =>
                  match env.analysis with
                  | .error e => .error e
                  | .ok result =>
                      .ok (extractDataCore result f.name f.content.length)

/-- `extract_data` (lines 183-448): the `try` body together with the
three `except` handlers, each of which re-raises as
`DocumentIntelligenceError` (`PyExc.die`).  A `DocumentIntelligenceError`
raised inside the `try` is itself caught by the blanket
`except Exception` handler and re-wrapped with the
"Unexpected error" prefix. -/
def extract_data (file? : Option UploadedFile) (endpoint : Option String)
    (use_key_credential : Bool) (api_key : Option String) (env : ExtractEnv) :
    Except PyExc (List (String × JVal)) :=
  match extractDataTry file? endpoint use_key_credential api_key env with
  | .ok d => .ok d
  | .error (.http m) =>
      .error (.die ("Azure Document Intelligence HTTP error: " ++ m))
  | .error (.service m) =>
      .error (.die ("Azure Document Intelligence service error: " ++ m))
  | .error (.die m) =>
      .error (.die ("Unexpected error during document analysis: " ++ m))
  | .error (.other m) =>
      .error (.die ("Unexpected error during document analysis: " ++ m))

end Lisa.Utils

namespace Lisa.App

/-! ## Data model of `src/app.py`'s `DocumentIntelligenceProcessor`

`_convert_result_to_dict` probes every attribute with `hasattr` before
reading it, so attributes are modelled with three states: absent,
present-but-`None`, and present with a value.  The one spot where the code
can raise inside the `try` block is the polygon comprehension at line 170
(`[... for point in region.polygon] if hasattr(region, 'polygon') else []`):
when the attribute exists but is `None`, iterating it raises `TypeError`. -/

/-- A Python attribute: absent, present with value `None`, or present
with a value. -/
inductive PyAttr (α : Type) where
  | missing : PyAttr α
  | pynone : PyAttr α
  | val : α → PyAttr α
  deriving DecidableEq

/-- Python `x.f if hasattr(x, 'f') else d`, rendered to JSON with `f`
(`None` values render as `null`). -/
def PyAttr.toJValOr (d : Lisa.JVal) (f : α → Lisa.JVal) : PyAttr α → Lisa.JVal
  | .missing => d
  | .pynone => .null
  | .val a => f a

/-- Python `x.f if hasattr(x, 'f') else None`, rendered to JSON. -/
def PyAttr.toJVal (f : α → Lisa.JVal) (a : PyAttr α) : Lisa.JVal :=
  a.toJValOr .null f

/-- The elements iterated under a guard
`if hasattr(x, 'f') and x.f:` — the empty list when the guard is falsy. -/
def PyAttr.truthyElems : PyAttr (List α) → List α
  | .val (x :: xs) => x :: xs
  | _ => []

/-- A polygon point of the `documentintelligence` SDK result. -/
structure AppPoint where
  x : ℚ
  y : ℚ
  deriving DecidableEq

/-- A bounding region of a line. -/
structure AppRegion where
  page_number : PyAttr Int
  polygon : PyAttr (List AppPoint)
  deriving DecidableEq

/-- A line on a page. -/
structure AppLine where
  content : PyAttr String
  bounding_regions : PyAttr (List AppRegion)
  deriving DecidableEq

/-- A page of the result. -/
structure AppPage where
  page_number : PyAttr Int
  width : PyAttr ℚ
  height : PyAttr ℚ
  unit : PyAttr String
  lines : PyAttr (List AppLine)
  deriving DecidableEq

/-- A table cell. -/
structure AppCell where
  content : PyAttr String
  row_index : PyAttr Int
  column_index : PyAttr Int
  row_span : PyAttr Int
  column_span : PyAttr Int
  deriving DecidableEq

/-- A table. -/
structure AppTable where
  row_count : PyAttr Int
  column_count : PyAttr Int
  cells : PyAttr (List AppCell)
  deriving DecidableEq

/-- A paragraph. -/
structure AppParagraph where
  content : PyAttr String
  role : PyAttr String
  deriving DecidableEq

/-- The `AnalyzeResult` consumed by `_convert_result_to_dict`. -/
structure AppResult where
  model_id : PyAttr String
  api_version : PyAttr String
  content : PyAttr String
  pages : PyAttr (List AppPage)
  tables : PyAttr (List AppTable)
  paragraphs : PyAttr (List AppParagraph)
  deriving DecidableEq

/-- The `region_info` dictionary (lines 168-171).  The polygon
comprehension runs whenever the attribute exists, so an existing-but-
`None` polygon raises `TypeError`, which propagates as the exception of
the transformation. -/
def convRegion (r : AppRegion) : Except String Lisa.JVal := do
  let poly : List Lisa.JVal ←
    match r.polygon with
    | .missing => pure []
    | .pynone => throw "NoneType object is not iterable"
    | .val pts => pure (pts.map fun p => Lisa.JVal.obj [("x", .num p.x), ("y", .num p.y)])
  pure (.obj [("page_number", r.page_number.toJVal .int), ("polygon", .arr poly)])

/-- The `line_info` dictionary (lines 160-174). -/
def convLine (l : AppLine) : Except String Lisa.JVal := do
  let regs ← l.bounding_regions.truthyElems.mapM convRegion
  pure (.obj [("content", l.content.toJVal .str), ("bounding_regions", .arr regs)])

/-- The `page_info` dictionary (lines 149-174). -/
def convPage (p : AppPage) : Except String Lisa.JVal := do
  let lines ← p.lines.truthyElems.mapM convLine
  pure (.obj [("page_number", p.page_number.toJVal .int),
              ("width", p.width.toJVal .num), ("height", p.height.toJVal .num),
              ("unit", p.unit.toJVal .str), ("lines", .arr lines)])

/-- The `cell_info` dictionary (lines 190-196): spans default to 1 when
the attribute is absent. -/
def convCell (c : AppCell) : Lisa.JVal :=
  .obj [("content", c.content.toJVal .str),
        ("row_index", c.row_index.toJVal .int),
        ("column_index", c.column_index.toJVal .int),
        ("row_span", c.row_span.toJValOr (.int 1) .int),
        ("column_span", c.column_span.toJValOr (.int 1) .int)]

/-- The `table_info` dictionary (lines 181-197). -/
def convTable (t : AppTable) : Lisa.JVal :=
  .obj [("row_count", t.row_count.toJVal .int),
        ("column_count", t.column_count.toJVal .int),
        ("cells", .arr (t.cells.truthyElems.map convCell))]

/-- The `paragraph_info` dictionary (lines 204-207). -/
def convParagraph (p : AppParagraph) : Lisa.JVal :=
  .obj [("content", p.content.toJVal .str), ("role", p.role.toJVal .str)]

/-- The body of `_convert_result_to_dict`'s `try` block (lines 135-210)
on a non-`None` result: any exception raised inside propagates as
`Except.error`. -/
def tryConvert (r : AppResult) : Except String (List (String × Lisa.JVal)) := do
  let pages ← r.pages.truthyElems.mapM convPage
  pure [("model_id", r.model_id.toJVal .str),
        ("api_version", r.api_version.toJVal .str),
        ("content", r.content.toJVal .str),
        ("pages", .arr pages),
        ("tables", .arr (r.tables.truthyElems.map convTable)),
        ("paragraphs", .arr (r.paragraphs.truthyElems.map convParagraph)),
        ("styles", .arr [])]

/-- The output of the `try` block when `result` is `None`: every
`hasattr` probe is false, so every field takes its default and no
exception can occur. -/
def noneOutput : List (String × Lisa.JVal) :=
  [("model_id", .null), ("api_version", .null), ("content", .null),
   ("pages", .arr []), ("tables", .arr []), ("paragraphs", .arr []),
   ("styles", .arr [])]

/-- The `try` block on the (possibly `None`) `result` argument. -/
def tryConvertOpt : Option AppResult → Except String (List (String × Lisa.JVal))
  | none => .ok noneOutput
  | some r => tryConvert r

/-- Python `str(result)` on the SDK result object, modelled as a simple
computable rendering (its exact text is irrelevant to the contract). -/
def strOfResult (r : AppResult) : String :=
  "AnalyzeResult(model_id=" ++
    (match r.model_id with | .val s => s | _ => "None") ++ ")"

/-- The degraded record built by the `except` handler (lines 212-218). -/
def degradedDict (msg : String) (result : Option AppResult) :
    List (String × Lisa.JVal) :=
  [("error", .str ("Failed to process result: " ++ msg)),
   ("raw_content", match result with
     | some r => .str (strOfResult r)
     | none => .null)]

/-- `_convert_result_to_dict` (lines 124-218): the `try` block with its
blanket `except` handler that downgrades any exception to the degraded
record. -/
def convert_result_to_dict (result : Option AppResult) :
    List (String × Lisa.JVal) :=
  match tryConvertOpt result with
  | .ok d => d
  | .error msg => degradedDict msg result

/-! ## The retry loop of `analyze_document` (lines 80-122) -/

/-- The outcome of one submission attempt
(`begin_analyze_document` + `poller.result()`): either the upstream
result object, or a raised exception with its message. -/
inductive AttemptOutcome where
  | success : AppResult → AttemptOutcome
  | failure : String → AttemptOutcome

/-- How a call to `analyze_document` ends: a returned dictionary, a
re-raised exception, or falling off the loop (returning `None`). -/
inductive AnalyzeOutcome where
  | ok : List (String × Lisa.JVal) → AnalyzeOutcome
  | raised : String → AnalyzeOutcome
  | noneReturn : AnalyzeOutcome

/-- The observable trace of one `analyze_document` call: how many
submission attempts were made, the backoff sleeps (in seconds, in
order), and the final outcome. -/
structure AnalyzeTrace where
  attempts : Nat
  sleeps : List Nat
  outcome : AnalyzeOutcome

/-- The `while retry_count < max_retries` loop.  `fuel` is an upper
bound on the remaining iterations (the loop body strictly increases
`retry_count`, so `maxRetries` fuel is always enough); `attempts` counts
submissions already made and indexes into `outcomes`. -/
def analyzeLoop (outcomes : Nat → AttemptOutcome) (maxRetries : Nat) :
    Nat → Nat → Nat → List Nat → AnalyzeTrace
  | 0, _, attempts, sleeps => ⟨attempts, sleeps, .noneReturn⟩
  | fuel + 1, retryCount, attempts, sleeps =>
      if retryCount < maxRetries then
        match outcomes attempts with
        | .success r =>
            ⟨attempts + 1, sleeps, .ok (convert_result_to_dict (some r))⟩
        | .failure e =>
            if retryCount + 1 ≥ maxRetries then
              ⟨attempts + 1, sleeps, .raised e⟩
            else
              analyzeLoop outcomes maxRetries fuel (retryCount + 1) (attempts + 1)
                (sleeps ++ [2 ^ (retryCount + 1)])
      else ⟨attempts, sleeps, .noneReturn⟩

/-- `analyze_document`: `max_retries = 3`, `retry_count = 0`, then the
retry loop; each successful attempt's result is converted with
`_convert_result_to_dict`. -/
def analyze_document (outcomes : Nat → AttemptOutcome) : AnalyzeTrace :=
  analyzeLoop outcomes 3 3 0 0 []

end Lisa.App

namespace Lisa.Utils

/-! ## Specification-side definitions and concrete inputs used by the
claim theorems -/

/-- The header-level classification as the specification words it: scan
the lowered role for the literal substrings `"h1"`..`"h6"`, first match
wins; only if none match and `"title"` is present classify as `"h1"`;
default `"h1"`.  Stated for comparison with the source's `headerLevel`,
which tests `"title"` together with `"h1"` at top priority. -/
def specHeaderLevel (role : String) : String :=
  let rl := strLower role
  if strIn "h1" rl then "h1"
  else if strIn "h2" rl then "h2"
  else if strIn "h3" rl then "h3"
  else if strIn "h4" rl then "h4"
  else if strIn "h5" rl then "h5"
  else if strIn "h6" rl then "h6"
  else if strIn "title" rl then "h1"
  else "h1"

/-- The paragraph confidence pool taken directly from the upstream
response (the spec's "non-null confidence values of paragraphs"). -/
def specParaPool (result : AnalyzeResult) : List ℚ :=
  result.paragraphs.filterMap Paragraph.confidence

/-- The table confidence pool taken directly from the upstream response. -/
def specTablePool (result : AnalyzeResult) : List ℚ :=
  result.tables.filterMap Table.confidence

/-- The formula confidence pool taken directly from the upstream response. -/
def specFormulaPool (result : AnalyzeResult) : List ℚ :=
  result.formulas.filterMap Formula.confidence

/-- The concatenation of the three confidence pools. -/
def specCombinedPool (result : AnalyzeResult) : List ℚ :=
  specParaPool result ++ specTablePool result ++ specFormulaPool result

/-- An upstream response with zero paragraphs, tables, formulas,
key-value pairs, and pages. -/
def emptyResult : AnalyzeResult :=
  { model_id := "prebuilt-layout", content := none, paragraphs := [],
    tables := [], formulas := [], key_value_pairs := [], pages := [] }

/-- The spec's confidence-aggregation example: paragraph confidences
`[0.9, 0.8]`, table confidences `[0.7]`, no formulas. -/
def exampleResult : AnalyzeResult :=
  { model_id := "prebuilt-layout", content := none
    paragraphs :=
      [{ content := "p1", role := none, confidence := some (9/10),
         bounding_regions := [] },
       { content := "p2", role := none, confidence := some (8/10),
         bounding_regions := [] }]
    tables :=
      [{ row_count := 1, column_count := 1, cells := [],
         confidence := some (7/10), bounding_regions := [] }]
    formulas := [], key_value_pairs := [], pages := [] }

/-- A paragraph element carrying two bounding regions on different
pages. -/
def twoRegionElement : DocElement :=
  .paragraph
    { content := "Elem", role := none, confidence := none
      bounding_regions :=
        [{ page_number := some 1,
           polygon := some [⟨0, 0⟩, ⟨1, 0⟩, ⟨1, 1⟩] },
         { page_number := some 2,
           polygon := some [⟨2, 2⟩, ⟨3, 2⟩, ⟨3, 3⟩] }] }

/-- A paragraph element with one bounding region that has no polygon
data. -/
def noPolyElement : DocElement :=
  .paragraph
    { content := "NoPoly", role := none, confidence := none
      bounding_regions := [{ page_number := some 1, polygon := none }] }

/-- A paragraph with role `"title h2"` (contains both `"title"` and
`"h2"`). -/
def titleH2Para : Paragraph :=
  { content := "T", role := some "title h2", confidence := none,
    bounding_regions := [] }

/-- A paragraph with role `"pageFooter"`. -/
def footerPara : Paragraph :=
  { content := "f", role := some "pageFooter", confidence := none,
    bounding_regions := [] }

/-- A paragraph with role `"title"`. -/
def titlePara : Paragraph :=
  { content := "t", role := some "title", confidence := none,
    bounding_regions := [] }

/-- A declared MIME type that passes the validator's MIME check: absent,
falsy, or one of the two accepted PDF MIME strings. -/
def mimeAcceptable : Option String → Prop
  | none => True
  | some t =>
      pyTruthyStr t = false ∨ strLower t = "application/pdf" ∨
        strLower t = "application/x-pdf"

end Lisa.Utils

namespace Lisa.App

/-- An upstream result object with no populated attributes (every
`hasattr` probe fails, so it converts to the all-null dictionary). -/
def sampleAppResult : AppResult :=
  { model_id := .missing, api_version := .missing, content := .missing,
    pages := .missing, tables := .missing, paragraphs := .missing }

/-- A result object whose only page has a line with a bounding region
whose `polygon` attribute exists but is `None`: converting it raises
`TypeError` inside the `try` block. -/
def badAppResult : AppResult :=
  { model_id := .val "prebuilt-layout", api_version := .missing,
    content := .missing
    pages := .val
      [{ page_number := .val 1, width := .missing, height := .missing,
         unit := .missing
         lines := .val
           [{ content := .val "x",
              bounding_regions := .val
                [{ page_number := .val 1, polygon := .pynone }] }] }]
    tables := .missing, paragraphs := .missing }

/-- A submission that fails on every attempt. -/
def allFailOutcomes : Nat → AttemptOutcome := fun _ => .failure "boom"

/-- A submission that fails on the first three attempts and would
succeed on a fourth. -/
def threeFailThenSuccess : Nat → AttemptOutcome := fun n =>
  if n < 3 then .failure "transient failure" else .success sampleAppResult

/-- A submission that fails on the first two attempts and succeeds on
the third. -/
def twoFailThenSuccess : Nat → AttemptOutcome := fun n =>
  if n < 2 then .failure "boom" else .success sampleAppResult

end Lisa.App

/-! # Helper theorems -/

namespace Lisa.Utils

theorem joinOpt_nil (o : Option (List α)) : joinOpt o [] = o := by
  cases o <;> simp [joinOpt]

theorem joinOpt_append (o : Option (List α)) (l l' : List α) :
    joinOpt (joinOpt o l) l' = joinOpt o (l ++ l') := by
  cases o with
  | some vs => simp [joinOpt]
  | none =>
      cases l with
      | nil => simp [joinOpt]
      | cons x xs => cases l' <;> simp [joinOpt]

theorem dlookup_dictAppend (d : List (String × List α)) (k₀ k : String) (v : α) :
    dlookup (dictAppend d k₀ v) k =
      if k = k₀ then joinOpt (dlookup d k) [v] else dlookup d k := by
  induction d with
  | nil => by_cases h : k = k₀ <;> simp [dictAppend, dlookup, joinOpt, h]
  | cons e rest ih =>
      obtain ⟨k', vs⟩ := e
      by_cases h1 : k' = k₀
      · subst h1
        by_cases h2 : k = k'
        · subst h2; simp [dictAppend, dlookup, joinOpt]
        · simp [dictAppend, dlookup, h2]
      · by_cases h2 : k = k'
        · subst h2
          simp [dictAppend, h1, dlookup]
        · simp [dictAppend, h1, dlookup, h2, ih]

theorem organizeStep_eq (acc : List (String × List HeaderInfo)) (p : Paragraph) :
    organizeStep acc p =
      match headerItem p with
      | none => acc
      | some (k, v) => dictAppend acc k v := by
  cases h : p.role with
  | none => simp [organizeStep, headerItem, h]
  | some role =>
      by_cases ht : pyTruthyStr role
      · by_cases hc : (strIn "title" (strLower role) || strIn "heading" (strLower role)) = true
        · simp [organizeStep, headerItem, h, ht, hc]
        · simp [organizeStep, headerItem, h, ht, hc]
      · simp [organizeStep, headerItem, h, ht]

theorem itemsAt_cons (p : Paragraph) (ps : List Paragraph) (k : String) :
    itemsAt (p :: ps) k =
      (match headerItem p with
        | none => []
        | some (k₀, v) => if k₀ = k then [v] else []) ++ itemsAt ps k := by
  cases h : headerItem p with
  | none => simp [itemsAt, h]
  | some kv =>
      obtain ⟨k₀, v⟩ := kv
      by_cases hk : k₀ = k <;> simp [itemsAt, h, hk]

theorem organize_lookup_aux (ps : List Paragraph) :
    ∀ (acc : List (String × List HeaderInfo)) (k : String),
      dlookup (List.foldl organizeStep acc ps) k =
        joinOpt (dlookup acc k) (itemsAt ps k) := by
  induction ps with
  | nil => intro acc k; simp [itemsAt, joinOpt_nil]
  | cons p ps ih =>
      intro acc k
      rw [List.foldl_cons, organizeStep_eq, itemsAt_cons]
      cases h : headerItem p with
      | none => simpa using ih acc k
      | some kv =>
          obtain ⟨k₀, v⟩ := kv
          rw [ih (dictAppend acc k₀ v) k, dlookup_dictAppend]
          by_cases hk : k = k₀

          · subst hk
            simp [joinOpt_append]
          · have hk' : k₀ ≠ k := fun h' => hk h'.symm
            simp [hk, hk']

/-- Lookup in the headers dictionary: exactly the records classified at
that level, in original paragraph order; absent when there are none. -/
theorem organize_lookup (ps : List Paragraph) (k : String) :
    dlookup (organizeHeadersByLevel ps) k =
      if itemsAt ps k = [] then none else some (itemsAt ps k) := by
  rw [organizeHeadersByLevel, organize_lookup_aux ps [] k]
  cases h : itemsAt ps k <;> simp [dlookup, joinOpt, h]

theorem dictAppend_vals_ne_nil (d : List (String × List α)) (k : String) (v : α)
    (hd : ∀ e ∈ d, e.2 ≠ []) : ∀ e ∈ dictAppend d k v, e.2 ≠ [] := by
  induction d with
  | nil => intro e he; simp [dictAppend] at he; subst he; simp
  | cons e₀ rest ih =>
      obtain ⟨k', vs⟩ := e₀
      intro e he
      by_cases h : k' = k
      · simp [dictAppend, h] at he
        rcases he with he | he
        · subst he; simp
        · exact hd e (by simp [he])
      · simp [dictAppend, h] at he
        rcases he with he | he
        · subst he; exact hd (k', vs) (by simp)
        · exact ih (fun e' he' => hd e' (by simp [he'])) e he

theorem organize_vals_ne_nil (ps : List Paragraph) :
    ∀ e ∈ organizeHeadersByLevel ps, e.2 ≠ [] := by
  rw [organizeHeadersByLevel]
  have main : ∀ (ps : List Paragraph) (acc : List (String × List HeaderInfo)),
      (∀ e ∈ acc, e.2 ≠ []) → ∀ e ∈ List.foldl organizeStep acc ps, e.2 ≠ [] := by
    intro ps
    induction ps with
    | nil => intro acc hacc; simpa using hacc
    | cons p ps ih =>
        intro acc hacc
        rw [List.foldl_cons, organizeStep_eq]
        cases h : headerItem p with
        | none => exact ih acc hacc
        | some kv => exact ih _ (dictAppend_vals_ne_nil acc kv.1 kv.2 hacc)
  exact main ps [] (by simp)

theorem dlookup_isSome_iff_mem_keys (d : List (String × α)) (k : String) :
    (dlookup d k).isSome ↔ k ∈ dictKeys d := by
  induction d with
  | nil => simp [dlookup, dictKeys]
  | cons e rest ih =>
      obtain ⟨k', v⟩ := e
      by_cases h : k = k' <;> simp [dlookup, dictKeys, h, ih]

theorem organize_of_no_headers (ps : List Paragraph)
    (h : ∀ p ∈ ps, headerItem p = none) : organizeHeadersByLevel ps = [] := by
  rw [organizeHeadersByLevel]
  have main : ∀ (ps : List Paragraph) (acc : List (String × List HeaderInfo)),
      (∀ p ∈ ps, headerItem p = none) → List.foldl organizeStep acc ps = acc := by
    intro ps
    induction ps with
    | nil => intro acc _; rfl
    | cons p ps ih =>
        intro acc hacc
        rw [List.foldl_cons, organizeStep_eq, hacc p (by simp)]
        exact ih acc (fun q hq => hacc q (by simp [hq]))
  exact main ps [] h

/-! ## Helper lemmas: folded minima / maxima and bounding-box counts -/

theorem foldl_min_spec (xs : List ℚ) : ∀ x : ℚ,
    xs.foldl min x ∈ x :: xs ∧ ∀ y ∈ x :: xs, xs.foldl min x ≤ y := by
  induction xs with
  | nil => intro x; simp
  | cons c xs ih =>
      intro x
      have h := ih (min x c)
      have hmem := h.1
      rw [List.mem_cons] at hmem
      constructor
      · rw [List.foldl_cons]
        rcases hmem with hm | hm
        · rcases min_choice x c with hc | hc <;> rw [hm, hc] <;> simp
        · simp [hm]
      · intro y hy
        rw [List.foldl_cons]
        rw [List.mem_cons, List.mem_cons] at hy
        rcases hy with hy | hy | hy
        · rw [hy]
          exact le_trans (h.2 (min x c) (by simp)) (min_le_left x c)
        · rw [hy]
          exact le_trans (h.2 (min x c) (by simp)) (min_le_right x c)
        · exact h.2 y (by simp [hy])

theorem foldl_max_spec (xs : List ℚ) : ∀ x : ℚ,
    xs.foldl max x ∈ x :: xs ∧ ∀ y ∈ x :: xs, y ≤ xs.foldl max x := by
  induction xs with
  | nil => intro x; simp
  | cons c xs ih =>
      intro x
      have h := ih (max x c)
      have hmem := h.1
      rw [List.mem_cons] at hmem
      constructor
      · rw [List.foldl_cons]
        rcases hmem with hm | hm
        · rcases max_choice x c with hc | hc <;> rw [hm, hc] <;> simp
        · simp [hm]
      · intro y hy
        rw [List.foldl_cons]
        rw [List.mem_cons, List.mem_cons] at hy
        rcases hy with hy | hy | hy
        · rw [hy]
          exact le_trans (le_max_left x c) (h.2 (max x c) (by simp))
        · rw [hy]
          exact le_trans (le_max_right x c) (h.2 (max x c) (by simp))
        · exact h.2 y (by simp [hy])

theorem pyMin_spec (l : List ℚ) (h : l ≠ []) :
    ∃ m, pyMin l = some m ∧ m ∈ l ∧ ∀ x ∈ l, m ≤ x := by
  cases l with
  | nil => exact absurd rfl h
  | cons x xs => exact ⟨xs.foldl min x, rfl, (foldl_min_spec xs x).1, (foldl_min_spec xs x).2⟩

theorem pyMax_spec (l : List ℚ) (h : l ≠ []) :
    ∃ m, pyMax l = some m ∧ m ∈ l ∧ ∀ x ∈ l, x ≤ m := by
  cases l with
  | nil => exact absurd rfl h
  | cons x xs => exact ⟨xs.foldl max x, rfl, (foldl_max_spec xs x).1, (foldl_max_spec xs x).2⟩

theorem regionBoxes_length (e : DocElement) (rs : List BoundingRegion) :
    (regionBoxes e rs).length = rs.countP regionHasPolygon := by
  induction rs with
  | nil => rfl
  | cons r rs ih =>
      cases h : r.polygon with
      | none =>
          simpa [regionBoxes, List.filterMap_cons, h, List.countP_cons,
            regionHasPolygon] using ih
      | some pts =>
          cases pts with
          | nil =>
              simpa [regionBoxes, List.filterMap_cons, h, List.countP_cons,
                regionHasPolygon] using ih
          | cons pt pts =>
              simpa [regionBoxes, List.filterMap_cons, h, List.countP_cons,
                regionHasPolygon] using ih

theorem extractBoundingBoxes_eq (es : List DocElement) :
    extractBoundingBoxes es = es.flatMap fun e => regionBoxes e e.bounding_regions := by
  induction es with
  | nil => rfl
  | cons e es ih =>
      rw [extractBoundingBoxes, List.flatMap_cons, ih]
      congr 1
      by_cases h : e.bounding_regions.isEmpty
      · rw [if_pos h]
        rw [List.isEmpty_iff] at h
        simp [regionBoxes, h]
      · rw [if_neg h]

theorem mem_regionBoxes (e : DocElement) (rs : List BoundingRegion)
    (r : BoundingRegion) (hr : r ∈ rs) (pt : Point) (pts : List Point)
    (hp : r.polygon = some (pt :: pts)) :
    ({ page_number := r.page_number
       polygon := (pt :: pts).map fun p => (p.x, p.y)
       content := e.contentAttr
       element_type := e.typeName
       confidence := e.confidenceAttr } : BBox) ∈ regionBoxes e rs := by
  rw [regionBoxes, List.mem_filterMap]
  exact ⟨r, hr, by rw [hp]⟩

end Lisa.Utils

namespace Lisa.Utils

theorem paragraphConfidences_eq (result : AnalyzeResult) :
    paragraphConfidences result = specParaPool result := by
  rw [paragraphConfidences, paraDatas, specParaPool]
  by_cases h : result.paragraphs.isEmpty
  · rw [if_pos h]
    rw [List.isEmpty_iff] at h
    rw [h]
    rfl
  · rw [if_neg h, List.filterMap_map]
    rfl

theorem tableConfidences_eq (result : AnalyzeResult) :
    tableConfidences result = specTablePool result := by
  rw [tableConfidences, tableDatas, specTablePool]
  by_cases h : result.tables.isEmpty
  · rw [if_pos h]
    rw [List.isEmpty_iff] at h
    rw [h]
    rfl
  · rw [if_neg h, List.filterMap_map]
    rfl

theorem formulaConfidences_eq (result : AnalyzeResult) :
    formulaConfidences result = specFormulaPool result := by
  rw [formulaConfidences, formulaDatas, specFormulaPool]
  by_cases h : result.formulas.isEmpty
  · rw [if_pos h]
    rw [List.isEmpty_iff] at h
    rw [h]
    rfl
  · rw [if_neg h, List.filterMap_map]
    rfl

end Lisa.Utils

/-! # Claim theorems -/

namespace Lisa.Utils

/-- Claim C4, counterexample: a paragraph whose role contains both
"title" and "h2" is grouped under "h1" by `_organize_headers_by_level`,
because the code tests `'h1' in role or 'title' in role` before
`'h2' in role`; the claim's rule (scan "h1".."h6" first, as
`specHeaderLevel` renders it) classifies the same role as "h2". -/
theorem headers_title_priority_cex :
    headerLevel "title h2" = "h1" ∧ specHeaderLevel "title h2" = "h2" ∧
    organizeHeadersByLevel [titleH2Para] =
      [("h1", [{ content := "T", confidence := none, bounding_regions := [] }])] ∧
    dlookup (organizeHeadersByLevel [titleH2Para]) "h2" = none := by
  refine ⟨?_, ?_, ?_, ?_⟩ <;> decide

/-- Claim C4 (amended): the headers mapping contains, at each level key,
exactly the records of the paragraphs whose truthy role contains "title"
or "heading" case-insensitively and whose computed level is that key, in
original paragraph order.  The level is "h1" when the lowered role
contains "h1" or "title" (tested before "h2".."h6"), else the first
match among "h2".."h6", else the default "h1".  In particular role
"title" groups under "h1", "sectionHeading h2" under "h2", "pageFooter"
is excluded entirely, and "heading" (no digit) groups under "h1". -/
theorem headers_classification :
    (∀ (ps : List Paragraph) (k : String),
        dlookup (organizeHeadersByLevel ps) k =
          if itemsAt ps k = [] then none else some (itemsAt ps k)) ∧
    headerLevel "title" = "h1" ∧ headerLevel "sectionHeading h2" = "h2" ∧
    headerLevel "heading" = "h1" ∧
    headerItem footerPara = none ∧
    headerItem titlePara =
      some ("h1", { content := "t", confidence := none,
                    bounding_regions := [] }) :=
  ⟨organize_lookup, by decide, by decide, by decide, by decide, by decide⟩

/-- Claim C9: the headers mapping contains a level key iff at least one
paragraph was classified at that level, no key ever maps to an empty
sequence, and a document with no title/heading paragraphs yields the
empty mapping (so the six keys h1..h6 are not all guaranteed present). -/
theorem headers_levels_minimal :
    ∀ ps : List Paragraph,
      (∀ e ∈ organizeHeadersByLevel ps, e.2 ≠ []) ∧
      (∀ k : String,
        k ∈ dictKeys (organizeHeadersByLevel ps) ↔ itemsAt ps k ≠ []) ∧
      ((∀ p ∈ ps, headerItem p = none) → organizeHeadersByLevel ps = []) := by
  intro ps
  refine ⟨organize_vals_ne_nil ps, ?_, organize_of_no_headers ps⟩
  intro k
  rw [← dlookup_isSome_iff_mem_keys, organize_lookup]
  by_cases h : itemsAt ps k = [] <;> simp [h]

/-- Witness for C9 at a concrete input: a lone pageFooter paragraph
produces the empty headers mapping. -/
theorem headers_levels_minimal_witness :
    organizeHeadersByLevel [footerPara] = [] :=
  (headers_levels_minimal [footerPara]).2.2 (by decide)

end Lisa.Utils

namespace Lisa.Utils

/-- Claim C1: the mapping returned by `extract_data` contains all nine
top-level keys for every upstream response; for a response with zero
paragraphs, zero tables, and zero formulas the paragraphs, headers,
formulas, tables, and bounding-box values are empty and every
`confidence_scores` field is null, and when the upstream key-value-pair
and page lists are also empty the remaining sequence-valued keys are
empty as well — no key is ever missing. -/
theorem extract_data_nine_keys :
    ∀ (result : AnalyzeResult) (fn : String) (fsz : Nat),
      dictKeys (extractDataCore result fn fsz) =
        ["paragraphs", "headers", "formulas", "tables", "key_value_pairs",
         "bounding_boxes", "pages", "document_metadata", "confidence_scores"] ∧
      (result.paragraphs = [] → result.tables = [] → result.formulas = [] →
        dlookup (extractDataCore result fn fsz) "paragraphs" = some (.arr []) ∧
        dlookup (extractDataCore result fn fsz) "headers" = some (.obj []) ∧
        dlookup (extractDataCore result fn fsz) "formulas" = some (.arr []) ∧
        dlookup (extractDataCore result fn fsz) "tables" = some (.arr []) ∧
        dlookup (extractDataCore result fn fsz) "bounding_boxes" = some (.arr []) ∧
        dlookup (extractDataCore result fn fsz) "confidence_scores" =
          some (.obj [("average_paragraph_confidence", .null),
                      ("average_table_confidence", .null),
                      ("average_formula_confidence", .null),
                      ("min_confidence", .null), ("max_confidence", .null)])) ∧
      (result.paragraphs = [] → result.tables = [] → result.formulas = [] →
       result.key_value_pairs = [] → result.pages = [] →
        dlookup (extractDataCore result fn fsz) "key_value_pairs" = some (.arr []) ∧
        dlookup (extractDataCore result fn fsz) "pages" = some (.arr [])) := by
  intro result fn fsz
  refine ⟨rfl, ?_, ?_⟩
  · intro h1 h2 h3
    refine ⟨?_, ?_, ?_, ?_, ?_, ?_⟩ <;>
      simp [extractDataCore, dlookup, paraDatas, headersDict, formulaDatas,
        tableDatas, allElements, h1, h2, h3, extractBoundingBoxes,
        confidenceScores, paragraphConfidences, tableConfidences,
        formulaConfidences, encConfidence, encOptQ, pyMin, pyMax]
  · intro h1 h2 h3 h4 h5
    constructor <;>
      simp [extractDataCore, dlookup, kvDatas, pageDatas, h4, h5]

/-- Witness for C1 at the empty upstream response. -/
theorem extract_data_nine_keys_witness :
    dlookup (extractDataCore emptyResult "doc.pdf" 0) "headers" =
      some (.obj []) ∧
    dlookup (extractDataCore emptyResult "doc.pdf" 0) "pages" =
      some (.arr []) :=
  ⟨((extract_data_nine_keys emptyResult "doc.pdf" 0).2.1 rfl rfl rfl).2.1,
   ((extract_data_nine_keys emptyResult "doc.pdf" 0).2.2 rfl rfl rfl rfl rfl).2⟩

/-- Claim C5: `confidence_scores` is computed from the non-null
confidence values of paragraphs, tables, and formulas: the three
averages are the arithmetic means of the respective pools (null on an
empty pool), min/max are the least and greatest values of the
concatenated pool (null when all three pools are empty); and on the
spec's example (paragraph confidences 0.9 and 0.8, table confidence 0.7,
no formulas) the averages are 0.85, 0.7, null with min 0.7 and max 0.9. -/
theorem confidence_scores_spec :
    (∀ (result : AnalyzeResult) (fn : String) (fsz : Nat),
      dlookup (extractDataCore result fn fsz) "confidence_scores" =
        some (encConfidence (confidenceScores result)) ∧
      (confidenceScores result).average_paragraph_confidence =
        (if specParaPool result = [] then none
         else some ((specParaPool result).sum / (specParaPool result).length)) ∧
      (confidenceScores result).average_table_confidence =
        (if specTablePool result = [] then none
         else some ((specTablePool result).sum / (specTablePool result).length)) ∧
      (confidenceScores result).average_formula_confidence =
        (if specFormulaPool result = [] then none
         else some ((specFormulaPool result).sum / (specFormulaPool result).length)) ∧
      (specCombinedPool result = [] →
        (confidenceScores result).min_confidence = none ∧
        (confidenceScores result).max_confidence = none) ∧
      (specCombinedPool result ≠ [] →
        ∃ m M, (confidenceScores result).min_confidence = some m ∧
          (confidenceScores result).max_confidence = some M ∧
          m ∈ specCombinedPool result ∧ M ∈ specCombinedPool result ∧
          ∀ x ∈ specCombinedPool result, m ≤ x ∧ x ≤ M)) ∧
    confidenceScores exampleResult =
      { average_paragraph_confidence := some (17/20)
        average_table_confidence := some (7/10)
        average_formula_confidence := none
        min_confidence := some (7/10)
        max_confidence := some (9/10) } := by
  constructor
  · intro result fn fsz
    have hp := paragraphConfidences_eq result
    have ht := tableConfidences_eq result
    have hf := formulaConfidences_eq result
    have hcomb : paragraphConfidences result ++ tableConfidences result ++
        formulaConfidences result = specCombinedPool result := by
      rw [hp, ht, hf]; rfl
    refine ⟨?_, ?_, ?_, ?_, ?_, ?_⟩
    · simp [extractDataCore, dlookup]
    · rw [show (confidenceScores result).average_paragraph_confidence =
            (if (paragraphConfidences result).isEmpty then none
             else some ((paragraphConfidences result).sum /
               (paragraphConfidences result).length)) from rfl, hp]
      by_cases h : specParaPool result = [] <;> simp [h]
    · rw [show (confidenceScores result).average_table_confidence =
            (if (tableConfidences result).isEmpty then none
             else some ((tableConfidences result).sum /
               (tableConfidences result).length)) from rfl, ht]
      by_cases h : specTablePool result = [] <;> simp [h]
    · rw [show (confidenceScores result).average_formula_confidence =
            (if (formulaConfidences result).isEmpty then none
             else some ((formulaConfidences result).sum /
               (formulaConfidences result).length)) from rfl, hf]
      by_cases h : specFormulaPool result = [] <;> simp [h]
    · intro hc
      have hnil : paragraphConfidences result ++ tableConfidences result ++
          formulaConfidences result = [] := by rw [hcomb]; exact hc
      constructor
      · rw [show (confidenceScores result).min_confidence =
              pyMin (paragraphConfidences result ++ tableConfidences result ++
                formulaConfidences result) from rfl, hnil]
        rfl
      · rw [show (confidenceScores result).max_confidence =
              pyMax (paragraphConfidences result ++ tableConfidences result ++
                formulaConfidences result) from rfl, hnil]
        rfl
    · intro hc
      obtain ⟨m, hm, hmm, hml⟩ := pyMin_spec (specCombinedPool result) hc
      obtain ⟨M, hM, hMm, hMl⟩ := pyMax_spec (specCombinedPool result) hc
      refine ⟨m, M, ?_, ?_, hmm, hMm, fun x hx => ⟨hml x hx, hMl x hx⟩⟩
      · rw [show (confidenceScores result).min_confidence =
              pyMin (paragraphConfidences result ++ tableConfidences result ++
                formulaConfidences result) from rfl, hcomb]
        exact hm
      · rw [show (confidenceScores result).max_confidence =
              pyMax (paragraphConfidences result ++ tableConfidences result ++
                formulaConfidences result) from rfl, hcomb]
        exact hM
  · simp [confidenceScores, paragraphConfidences, tableConfidences,
      formulaConfidences, exampleResult, paraDatas, mkParaData, tableDatas,
      mkTableData, formulaDatas, pyMin, pyMax]
    norm_num [min_def, max_def]

/-- Witness for C5 at the empty upstream response: the combined pool is
empty, so min and max are null. -/
theorem confidence_scores_spec_witness :
    (confidenceScores emptyResult).min_confidence = none ∧
    (confidenceScores emptyResult).max_confidence = none :=
  (confidence_scores_spec.1 emptyResult "doc.pdf" 0).2.2.2.2.1 rfl

end Lisa.Utils

namespace Lisa.Utils

/-- Claim C6, counterexample: `_extract_bounding_boxes` skips a bounding
region whose polygon is missing (the guard
`hasattr(region, 'polygon') and region.polygon`), so an element carrying
one such region contributes no entry — not one entry per region found. -/
theorem bounding_boxes_missing_polygon_cex :
    noPolyElement.bounding_regions.length = 1 ∧
    extractBoundingBoxes [noPolyElement] = [] := by
  constructor <;> rfl

/-- Claim C6 (amended): the flattened `bounding_boxes` list contains one
entry per bounding region that carries a nonempty polygon, each entry
holding that region's page number and polygon as ordered (x, y) pairs
together with the owning element's content (empty string when the
element has none, e.g. tables), its type tag, and its confidence; an
element with two such regions on different pages yields two distinct
entries sharing content and element type but each with its own page
number. -/
theorem bounding_boxes_flattening :
    (∀ elements : List DocElement,
      (extractBoundingBoxes elements).length =
        (elements.map fun e => e.bounding_regions.countP regionHasPolygon).sum ∧
      ∀ e ∈ elements, ∀ r ∈ e.bounding_regions, ∀ (pt : Point) (pts : List Point),
        r.polygon = some (pt :: pts) →
        ({ page_number := r.page_number
           polygon := (pt :: pts).map fun p => (p.x, p.y)
           content := e.contentAttr
           element_type := e.typeName
           confidence := e.confidenceAttr } : BBox) ∈
          extractBoundingBoxes elements) ∧
    extractBoundingBoxes [twoRegionElement] =
      [{ page_number := some 1, polygon := [(0, 0), (1, 0), (1, 1)],
         content := "Elem", element_type := "DocumentParagraph",
         confidence := none },
       { page_number := some 2, polygon := [(2, 2), (3, 2), (3, 3)],
         content := "Elem", element_type := "DocumentParagraph",
         confidence := none }] := by
  refine ⟨?_, by decide⟩
  intro elements
  constructor
  · rw [extractBoundingBoxes_eq, List.length_flatMap]
    congr 1
    apply List.map_congr_left
    intro e _
    exact regionBoxes_length e e.bounding_regions
  · intro e he r hr pt pts hp
    rw [extractBoundingBoxes_eq]
    exact List.mem_flatMap.mpr
      ⟨e, he, mem_regionBoxes e e.bounding_regions r hr pt pts hp⟩

/-- Witness for C6: the first region of the two-region element produces
its entry in the flattened list. -/
theorem bounding_boxes_flattening_witness :
    ({ page_number := some 1, polygon := [(0, 0), (1, 0), (1, 1)],
       content := "Elem", element_type := "DocumentParagraph",
       confidence := none } : BBox) ∈ extractBoundingBoxes [twoRegionElement] :=
  (bounding_boxes_flattening.1 [twoRegionElement]).2 twoRegionElement
    (by decide)
    { page_number := some 1, polygon := some [⟨0, 0⟩, ⟨1, 0⟩, ⟨1, 1⟩] }
    (by decide) ⟨0, 0⟩ [⟨1, 0⟩, ⟨1, 1⟩] rfl

/-- Claim C8, counterexample: `_validate_pdf_file` checks the extension
before emptiness, so an empty file named `a.txt` fails with the
invalid-file-type error, not with the EmptyFile error ("File is
empty"). -/
theorem validate_empty_bad_extension_cex :
    validatePdfFile (some { name := "a.txt", type := none, content := [] }) =
      .error (.die "Invalid file type. Expected PDF, got: a.txt") ∧
    PyExc.die "Invalid file type. Expected PDF, got: a.txt" ≠
      PyExc.die "File is empty" := by
  exact ⟨rfl, by decide⟩

/-- Claim C8 (amended): for every uploaded file that passes the
extension and MIME checks (in particular any file with a `.pdf`
extension and an acceptable declared MIME type), empty byte content
fails validation with the EmptyFile error ("File is empty"). -/
theorem validate_empty_pdf_emptyfile (f : UploadedFile)
    (hext : strEndsWith (strLower f.name) ".pdf" = true)
    (hmime : mimeAcceptable f.type) (hempty : f.content = []) :
    validatePdfFile (some f) = .error (.die "File is empty") := by
  have hsize : validateSize f = .error (.die "File is empty") := by
    rw [validateSize, hempty]
    rfl
  rw [validatePdfFile.eq_def]
  simp only [hext, Bool.not_true]
  cases htype : f.type with
  | none => simpa using hsize
  | some t =>
      rw [htype] at hmime
      rcases hmime with hm | hm | hm
      · simpa [hm] using hsize
      · simpa [hm] using hsize
      · simpa [hm] using hsize

/-- Witness for C8 (amended) at a concrete empty PDF upload. -/
theorem validate_empty_pdf_emptyfile_witness :
    validatePdfFile (some { name := "doc.pdf", type := none, content := [] }) =
      .error (.die "File is empty") :=
  validate_empty_pdf_emptyfile
    { name := "doc.pdf", type := none, content := [] }
    (by decide) True.intro rfl

/-- Claim C10: for every input and environment, `extract_data` either
returns a result or fails with the single exception class
`DocumentIntelligenceError` (`PyExc.die`); no other exception type
escapes, because each `except` handler re-raises as that class. -/
theorem extract_data_only_die :
    ∀ (file? : Option UploadedFile) (endpoint : Option String)
      (use_key : Bool) (api_key : Option String) (env : ExtractEnv),
      (∃ d, extract_data file? endpoint use_key api_key env = .ok d) ∨
      (∃ m, extract_data file? endpoint use_key api_key env =
        .error (.die m)) := by
  intro file? endpoint use_key api_key env
  cases h : extractDataTry file? endpoint use_key api_key env with
  | ok d => exact Or.inl ⟨d, by simp [extract_data, h]⟩
  | error e =>
      refine Or.inr ?_
      cases e with
      | die m =>
          exact ⟨"Unexpected error during document analysis: " ++ m,
            by simp [extract_data, h]⟩
      | http m =>
          exact ⟨"Azure Document Intelligence HTTP error: " ++ m,
            by simp [extract_data, h]⟩
      | service m =>
          exact ⟨"Azure Document Intelligence service error: " ++ m,
            by simp [extract_data, h]⟩
      | other m =>
          exact ⟨"Unexpected error during document analysis: " ++ m,
            by simp [extract_data, h]⟩

end Lisa.Utils

namespace Lisa.App

/-- Claim C2: when the upstream submission fails on every attempt,
`analyze_document` makes exactly 3 attempts, sleeps 2^attempt seconds
between consecutive attempts (2 s after the first failure, 4 s after the
second), and surfaces the last underlying error — it returns no result
and never makes a 4th submission. -/
theorem analyze_document_exhausts_after_three
    (outcomes : Nat → AttemptOutcome)
    (h : ∀ n, ∃ e, outcomes n = .failure e) :
    ∃ e₂, outcomes 2 = .failure e₂ ∧
      analyze_document outcomes =
        { attempts := 3, sleeps := [2, 4], outcome := .raised e₂ } := by
  obtain ⟨e0, h0⟩ := h 0
  obtain ⟨e1, h1⟩ := h 1
  obtain ⟨e2, h2⟩ := h 2
  exact ⟨e2, h2, by simp [analyze_document, analyzeLoop, h0, h1, h2]⟩

/-- Witness for C2 at the constantly failing submission. -/
theorem analyze_document_exhausts_after_three_witness :
    (analyze_document allFailOutcomes).attempts = 3 ∧
    (analyze_document allFailOutcomes).sleeps = [2, 4] := by
  obtain ⟨e, _, htr⟩ := analyze_document_exhausts_after_three allFailOutcomes
    (fun n => ⟨"boom", rfl⟩)
  rw [htr]
  exact ⟨rfl, rfl⟩

/-- Claim C3, counterexample: with three transient failures followed by
a success that would be available on a fourth attempt,
`analyze_document` stops after exactly 3 attempts and re-raises the
third error — it never performs the fourth attempt and returns no
result (`max_retries = 3` bounds total attempts, not retries after the
first). -/
theorem analyze_no_fourth_attempt_cex :
    analyze_document threeFailThenSuccess =
      { attempts := 3, sleeps := [2, 4],
        outcome := .raised "transient failure" } := rfl

/-- Claim C3 (amended): for two consecutive transient failures followed
by a success, `analyze_document` performs the third attempt and returns
the successful result converted by `_convert_result_to_dict`, after
backoff sleeps of 2 and 4 seconds. -/
theorem analyze_two_failures_then_success
    (outcomes : Nat → AttemptOutcome) (r : AppResult)
    (h0 : ∃ e, outcomes 0 = .failure e) (h1 : ∃ e, outcomes 1 = .failure e)
    (h2 : outcomes 2 = .success r) :
    analyze_document outcomes =
      { attempts := 3, sleeps := [2, 4],
        outcome := .ok (convert_result_to_dict (some r)) } := by
  obtain ⟨e0, h0⟩ := h0
  obtain ⟨e1, h1⟩ := h1
  simp [analyze_document, analyzeLoop, h0, h1, h2]

/-- Witness for C3 (amended): two failures then a success on the third
attempt. -/
theorem analyze_two_failures_then_success_witness :
    analyze_document twoFailThenSuccess =
      { attempts := 3, sleeps := [2, 4],
        outcome := .ok (convert_result_to_dict (some sampleAppResult)) } :=
  analyze_two_failures_then_success twoFailThenSuccess sampleAppResult
    ⟨"boom", rfl⟩ ⟨"boom", rfl⟩ rfl

/-- Claim C7: `_convert_result_to_dict` never raises: for every
(possibly `None`) upstream result it returns either the dictionary built
by the `try` block, or — when the transformation raises — exactly the
degraded record with the error message and the string form of the result
(null when the result is `None`); a result whose region has a `None`
polygon exercises the exception path. -/
theorem convert_result_never_raises :
    (∀ result : Option AppResult, ∃ d, convert_result_to_dict result = d ∧
      (tryConvertOpt result = .ok d ∨
        ∃ m, tryConvertOpt result = .error m ∧ d = degradedDict m result)) ∧
    tryConvertOpt (some badAppResult) =
      .error "NoneType object is not iterable" ∧
    convert_result_to_dict (some badAppResult) =
      [("error",
        .str "Failed to process result: NoneType object is not iterable"),
       ("raw_content", .str "AnalyzeResult(model_id=prebuilt-layout)")] := by
  refine ⟨?_, rfl, rfl⟩
  intro result
  cases h : tryConvertOpt result with
  | ok d => exact ⟨d, by simp [convert_result_to_dict, h], Or.inl rfl⟩
  | error m =>
      exact ⟨degradedDict m result, by simp [convert_result_to_dict, h],
        Or.inr ⟨m, rfl, rfl⟩⟩

end Lisa.App
